import Mathlib

/-!
Verification development for the fraud-detection / risk-model-lifecycle service.

The definitions below are a shallow embedding of the Python source:
  * `backend/services/fraud_detection.py` — anomaly detectors, risk
    aggregator, risk level mapping, transaction evaluation, peer
    similarity ranker;
  * `backend/routes/model_management.py` — the risk-model lifecycle
    operations (create / update / archive / restore / activate) over the
    `risk_models` collection.

Floats are modelled as `Rat` (the arithmetic in the source is exact
decimal arithmetic on the inputs we consider), MongoDB documents as
structures, collections as lists of documents in natural order
(`find_one` returns the first match), and Python `try/except` blocks
around fallible collaborator calls as `Except`-typed inputs: an
`.error` input models the situation in which the wrapped body raises.
-/

namespace FraudService

/-! ### Module-level constants (environment defaults, fraud_detection.py lines 16-27) -/

def AMOUNT_THRESHOLD_MULTIPLIER : Rat := 3
def MAX_LOCATION_DISTANCE_KM : Rat := 500
def VELOCITY_TIME_WINDOW_MINUTES : Rat := 60
def VELOCITY_THRESHOLD : Nat := 5
def WEIGHT_AMOUNT : Rat := 25/100
def WEIGHT_LOCATION : Rat := 25/100
def WEIGHT_DEVICE : Rat := 20/100
def WEIGHT_VELOCITY : Rat := 15/100
def WEIGHT_PATTERN : Rat := 15/100

/-! ### Amount anomaly detector (`_check_amount_anomaly`, lines 230-279) -/

/-- Inputs read by `_check_amount_anomaly`: `transaction.get("amount", 0)` and the
customer's `behavioral_profile.transaction_patterns` average / standard deviation
(each defaulting to 0 when absent). -/
structure AmountInput where
  amount : Rat
  avgAmount : Rat
  stdAmount : Rat
deriving DecidableEq, Repr

/-- The anomaly condition of the amount detector, line 260:
`z_score > AMOUNT_THRESHOLD_MULTIPLIER or ratio_to_avg > 5.0`. -/
def amountFlag (z ratio : Rat) : Bool :=
  decide (z > AMOUNT_THRESHOLD_MULTIPLIER) || decide (ratio > 5)

/-- `_check_amount_anomaly` (lines 230-279).  The `Except`-typed argument models
the `try/except` wrapper: an `.error` input stands for the body raising
(lines 277-279 return `(False, 0.0)` in that case). -/
def check_amount_anomaly (inp : Except String AmountInput) : Bool × Rat :=
  match inp with
  | .error _ => (false, 0)
  | .ok i =>
    if i.avgAmount = 0 ∨ i.stdAmount = 0 then
      (true, 6/10)
    else
      let z : Rat := if i.stdAmount > 0 then |i.amount - i.avgAmount| / i.stdAmount else 0
      let ratio : Rat := if i.avgAmount > 0 then i.amount / i.avgAmount else 0
      let risk : Rat :=
        if ratio ≥ 10 then 1
        else if ratio ≥ 5 then 85/100 + ((ratio - 5) / 5) * (15/100)
        else min 1 (z / (AMOUNT_THRESHOLD_MULTIPLIER * 2))
      (amountFlag z ratio, risk)

/-! ### Location anomaly detector (`_check_location_anomaly`, lines 281-337) -/

/-- Inputs read by `_check_location_anomaly`: the transaction's coordinate list
and the customer's `usual_transaction_locations` coordinate lists. -/
structure LocationInput where
  txCoords : List Rat
  usualLocations : List (List Rat)
deriving DecidableEq, Repr

/-- The anomaly condition of the location detector, line 322:
`min_distance_km > MAX_LOCATION_DISTANCE_KM`. -/
def locationFlag (minDistanceKm : Rat) : Bool :=
  decide (minDistanceKm > MAX_LOCATION_DISTANCE_KM)

/-- Minimum haversine distance from the transaction coordinate to any
well-formed usual location (lines 311-319).  The accumulator starts at
`float('inf')`, modelled as `none`; entries whose coordinate list is empty or
not of length 2 are skipped.  The distance function itself
(`_calculate_haversine_distance`, trigonometric) is a parameter. -/
def locMinDist (dist : Rat → Rat → Rat → Rat → Rat) (tx ty : Rat)
    (locs : List (List Rat)) : Option Rat :=
  locs.foldl
    (fun acc lc =>
      match lc with
      | [x, y] =>
        let d := dist tx ty x y
        match acc with
        | none => some d
        | some m => some (min m d)
      | _ => acc)
    none

/-- `_check_location_anomaly` (lines 281-337), parameterized over the haversine
distance function.  `.error` models the `try/except` wrapper (lines 335-337).
A `none` minimum distance models `float('inf')` surviving the loop: then
`inf > 500` is true and `max(0.85, min(1.0, inf/600)) = 1.0`. -/
def check_location_anomaly (dist : Rat → Rat → Rat → Rat → Rat)
    (inp : Except String LocationInput) : Bool × Rat :=
  match inp with
  | .error _ => (false, 0)
  | .ok i =>
    match i.txCoords with
    | [tx, ty] =>
      if i.usualLocations.isEmpty then
        (true, 1/2)
      else
        match locMinDist dist tx ty i.usualLocations with
        | none => (true, 1)
        | some d =>
          if locationFlag d then
            (true, max (85/100) (min 1 (d / (MAX_LOCATION_DISTANCE_KM * (12/10)))))
          else
            (false, min (1/2) (d / MAX_LOCATION_DISTANCE_KM))
    | _ => (false, 0)

/-! ### Device anomaly detector (`_check_device_anomaly`, lines 339-394) -/

/-- A known device from `behavioral_profile.devices`: its `device_id` and
`ip_range` list. -/
structure KnownDevice where
  deviceId : String
  ipRange : List String
deriving DecidableEq, Repr

/-- Inputs read by `_check_device_anomaly`: the transaction's
`device_info.device_id` / `device_info.ip` (empty string models a missing,
falsy value) and the customer's known devices. -/
structure DeviceInput where
  deviceId : String
  deviceIp : String
  knownDevices : List KnownDevice
deriving DecidableEq, Repr

/-- `_check_device_anomaly` (lines 339-394).  `.error` models the `try/except`
wrapper (lines 392-394).  The loop of lines 370-382 sets `device_known` when
some known device's id matches and `ip_match` when the transaction ip equals
some entry of some known device's `ip_range`; only the former short-circuits
the result, so the outcome is as below. -/
def check_device_anomaly (inp : Except String DeviceInput) : Bool × Rat :=
  match inp with
  | .error _ => (false, 0)
  | .ok i =>
    if i.deviceId = "" then
      (true, 1/2)
    else
      let deviceKnown := i.knownDevices.any (fun d => d.deviceId == i.deviceId)
      let ipMatch := i.deviceIp != "" &&
        i.knownDevices.any (fun d => d.ipRange.any (fun ip => ip == i.deviceIp))
      if deviceKnown then (false, 0)
      else if ipMatch then (true, 1/2)
      else (true, 9/10)

/-! ### Velocity detector (`_check_transaction_velocity`, lines 396-437) -/

/-- A stored transaction as the velocity query sees it: owning customer and
timestamp (modelled as rational minutes on one global clock). -/
structure StoredTx where
  customerId : String
  timestamp : Rat
deriving DecidableEq, Repr

/-- The anomaly condition of the velocity detector, line 428:
`transaction_count >= VELOCITY_THRESHOLD`. -/
def velocityFlag (count : Nat) : Bool :=
  decide (count ≥ VELOCITY_THRESHOLD)

/-- `_check_transaction_velocity` (lines 396-437).  The `Except`-typed store
argument models the collection query inside the `try`: `.error` stands for the
store being unreachable (lines 435-437 return `(False, 0.0)`).  The Mongo
filter `customer_id = cid ∧ start_time ≤ t < current_time` is embedded as a
list filter. -/
def check_transaction_velocity (currentTime : Rat) (customerId : String)
    (store : Except String (List StoredTx)) : Bool × Rat :=
  match store with
  | .error _ => (false, 0)
  | .ok txs =>
    let startTime := currentTime - VELOCITY_TIME_WINDOW_MINUTES
    let recent := txs.filter
      (fun t => t.customerId == customerId &&
        decide (startTime ≤ t.timestamp) && decide (t.timestamp < currentTime))
    let count := recent.length
    let risk : Rat := min 1 ((count : Rat) / ((VELOCITY_THRESHOLD : Rat) * (3/2)))
    (velocityFlag count, risk)

/-! ### Risk aggregator (`_calculate_risk_score`, lines 835-904) -/

/-- `_calculate_risk_score` (lines 835-904): weighted transaction risk on a
0-100 scale, a non-linear branch when the worst single factor reaches 80, and
a final cap at 100. -/
def calculate_risk_score (amountRisk locationRisk deviceRisk velocityRisk
    patternRisk customerBaseRisk : Rat) : Rat :=
  let transactionWeightedScore :=
    amountRisk * WEIGHT_AMOUNT +
    locationRisk * WEIGHT_LOCATION +
    deviceRisk * WEIGHT_DEVICE +
    velocityRisk * WEIGHT_VELOCITY +
    patternRisk * WEIGHT_PATTERN
  let transactionRisk := transactionWeightedScore * 100
  let maxPossibleSingleRisk :=
    (max (if amountRisk > 0 then amountRisk else 0)
      (max (if locationRisk > 0 then locationRisk else 0)
        (max (if deviceRisk > 0 then deviceRisk else 0)
          (max (if velocityRisk > 0 then velocityRisk else 0)
            (if patternRisk > 0 then patternRisk else 0))))) * 100
  let combinedRisk :=
    if maxPossibleSingleRisk ≥ 80 then
      transactionRisk * (5/10) + maxPossibleSingleRisk * (3/10) + customerBaseRisk * (2/10)
    else
      transactionRisk * (7/10) + customerBaseRisk * (3/10)
  min combinedRisk 100

/-- `_determine_risk_level` (lines 906-926). -/
def determine_risk_level (riskScore : Rat) : String :=
  if riskScore < 35 then "low"
  else if riskScore < 55 then "medium"
  else "high"

/-! ### Transaction evaluation (`evaluate_transaction`, lines 51-228) -/

/-- The customer document fields `evaluate_transaction` and the detectors
read: `_id`, `account_info.account_number`, the behavioral profile pieces and
`risk_profile.overall_risk_score` (`none` models an absent risk profile,
lines 176-183 then default the baseline to 0). -/
structure Customer where
  id : String
  accountNumber : String
  avgAmount : Rat
  stdAmount : Rat
  usualLocations : List (List Rat)
  devices : List KnownDevice
  overallRiskScore : Option Rat
deriving DecidableEq, Repr

/-- The transaction fields the evaluation reads.  `customerId = ""` models a
missing / falsy `customer_id` (line 66 `if not customer_id`). -/
structure Transaction where
  customerId : String
  amount : Rat
  coords : List Rat
  deviceId : String
  deviceIp : String
  timestamp : Rat
deriving DecidableEq, Repr

/-- Per-factor contribution breakdown (lines 211-220). -/
structure Diagnostics where
  customerBaseRisk : Rat
  amount : Rat
  location : Rat
  device : Rat
  velocity : Rat
  pattern : Rat
deriving DecidableEq, Repr

/-- The risk assessment dictionary returned by `evaluate_transaction`.  The
two short-circuit returns (lines 68-73 and 142-147) carry no diagnostics. -/
structure RiskAssessment where
  score : Rat
  level : String
  flags : List String
  transactionType : String
  diagnostics : Option Diagnostics
deriving DecidableEq, Repr

/-- `round(x, 2)` of the source (lines 207 and 212-218).  Python rounds the
nearest-representable float with ties to even; for the non-tie rational values
arising in the claims this equals rounding half up, which is what we use. -/
def round2 (q : Rat) : Rat := (⌊q * 100 + 1/2⌋ : Rat) / 100

/-- The customer lookup of `evaluate_transaction` (lines 80-135): first
`find_one {"_id": customer_id}` (the ObjectId/string retries query the same
key), then `find_one {"account_info.account_number": customer_id}`, and if
still nothing, the first customer of the collection is used as a fallback
(lines 115-124); `none` is returned only when the collection is empty. -/
def lookup_customer (customers : List Customer) (customerId : String) :
    Option Customer :=
  match customers.find? (fun c => c.id == customerId) with
  | some c => some c
  | none =>
    match customers.find? (fun c => c.accountNumber == customerId) with
    | some c => some c
    | none => customers.head?

/-- `evaluate_transaction` (lines 51-228), parameterized over the haversine
distance function and the stored-transaction collection used by the velocity
query (its `Except` models store unreachability). -/
def evaluate_transaction (dist : Rat → Rat → Rat → Rat → Rat)
    (customers : List Customer) (txStore : Except String (List StoredTx))
    (tx : Transaction) : RiskAssessment :=
  if tx.customerId = "" then
    ⟨50, "medium", ["missing_customer_reference"], "suspicious", none⟩
  else
    match lookup_customer customers tx.customerId with
    | none => ⟨70, "high", ["customer_not_found"], "suspicious", none⟩
    | some customer =>
      let amountRes := check_amount_anomaly
        (.ok ⟨tx.amount, customer.avgAmount, customer.stdAmount⟩)
      let locationRes := check_location_anomaly dist
        (.ok ⟨tx.coords, customer.usualLocations⟩)
      let deviceRes := check_device_anomaly
        (.ok ⟨tx.deviceId, tx.deviceIp, customer.devices⟩)
      let velocityRes := check_transaction_velocity tx.timestamp tx.customerId txStore
      let flags :=
        (if amountRes.1 then ["unusual_amount"] else []) ++
        (if locationRes.1 then ["unexpected_location"] else []) ++
        (if deviceRes.1 then ["unknown_device"] else []) ++
        (if velocityRes.1 then ["velocity_alert"] else [])
      let customerRiskScore := customer.overallRiskScore.getD 0
      let riskScore := calculate_risk_score
        (if amountRes.1 then amountRes.2 else 0)
        (if locationRes.1 then locationRes.2 else 0)
        (if deviceRes.1 then deviceRes.2 else 0)
        (if velocityRes.1 then velocityRes.2 else 0)
        0
        customerRiskScore
      let riskLevel := determine_risk_level riskScore
      let transactionType :=
        if riskLevel = "high" then "fraudulent"
        else if riskLevel = "medium" then "suspicious"
        else "legitimate"
      ⟨round2 riskScore, riskLevel, flags, transactionType,
        some ⟨round2 customerRiskScore,
          if amountRes.1 then round2 (amountRes.2 * 100) else 0,
          if locationRes.1 then round2 (locationRes.2 * 100) else 0,
          if deviceRes.1 then round2 (deviceRes.2 * 100) else 0,
          if velocityRes.1 then round2 (velocityRes.2 * 100) else 0,
          0⟩⟩

/-! ### Risk model lifecycle (`routes/model_management.py`) -/

/-- A risk factor entry (`RiskFactor` Pydantic model, lines 44-49). -/
structure RiskFactorDoc where
  factorId : String
  description : String
  threshold : Option Rat
  distanceThreshold : Option Rat
  active : Bool
deriving DecidableEq, Repr

/-- The `performance` summary sub-document (lines 199-203 / 259-263). -/
structure Performance where
  falsePositiveRate : Option Rat
  falseNegativeRate : Option Rat
  avgProcessingTime : Option Rat
deriving DecidableEq, Repr

/-- The freshly reset performance summary, all metrics unset. -/
def emptyPerformance : Performance := ⟨none, none, none⟩

/-- A document of the `risk_models` collection.  `docId` models the unique
Mongo `_id`; timestamps are abstract clock values (`createdAt`/`updatedAt`). -/
structure RiskModelDoc where
  docId : Nat
  modelId : String
  version : Nat
  status : String
  createdAt : Nat
  updatedAt : Nat
  description : String
  weights : List (String × Rat)
  thresholds : List (String × Rat)
  riskFactors : List RiskFactorDoc
  performance : Performance
deriving DecidableEq, Repr

/-- `count_documents({"status": "active"})` (line 322). -/
def countActive (store : List RiskModelDoc) : Nat :=
  (store.filter (fun d => d.status == "active")).length

/-- The `{"modelId": _, "version": _?}` query: `if version:` in Python adds
the version filter only for a truthy (non-zero) version argument. -/
def matchesQuery (modelId : String) (version : Option Nat) (d : RiskModelDoc) :
    Bool :=
  d.modelId == modelId &&
    (match version with
     | none => true
     | some v => if v = 0 then true else d.version == v)

/-- `find_one(query)` over the collection in natural order. -/
def findModel (store : List RiskModelDoc) (modelId : String)
    (version : Option Nat) : Option RiskModelDoc :=
  store.find? (matchesQuery modelId version)

/-- `find_one({"modelId": _, "status": {"$ne": "archived"}}, sort version
descending)` (lines 229-232): among the non-archived versions of the model,
the first one of maximal version. -/
def findLatestNonArchived (store : List RiskModelDoc) (modelId : String) :
    Option RiskModelDoc :=
  (store.filter (fun d => d.modelId == modelId && d.status != "archived")).foldl
    (fun acc d =>
      match acc with
      | none => some d
      | some b => if d.version > b.version then some d else some b)
    none

/-- `update_one(filter, {"$set": ...})`: rewrite the first document matching
the filter; the returned flag is Mongo's `modified_count == 1`, i.e. whether a
match was found *and* the rewrite changed the document. -/
def updateFirst (store : List RiskModelDoc) (p : RiskModelDoc → Bool)
    (f : RiskModelDoc → RiskModelDoc) : List RiskModelDoc × Bool :=
  match store with
  | [] => ([], false)
  | d :: rest =>
    if p d then (f d :: rest, decide (f d ≠ d))
    else
      let r := updateFirst rest p f
      (d :: r.1, r.2)

/-- `activate_risk_model` (lines 368-418): find the target, no-op success if
already active, reject archived targets, otherwise — inside the activation
lock and a store transaction — deactivate every active model (`update_many`)
and activate the target (`update_one` by `_id`).  On success the result is
the new store paired with the response message. -/
def activate_risk_model (store : List RiskModelDoc) (modelId : String)
    (version : Option Nat) (now : Nat) :
    Except String (List RiskModelDoc × String) :=
  match findModel store modelId version with
  | none => .error "Risk model not found"
  | some m =>
    if m.status = "active" then
      .ok (store, "Model " ++ modelId ++ " is already active")
    else if m.status = "archived" then
      .error "Cannot activate an archived model"
    else
      let deactivated := store.map
        (fun d => if d.status == "active"
          then { d with status := "inactive", updatedAt := now } else d)
      let r := updateFirst deactivated (fun d => d.docId == m.docId)
        (fun d => { d with status := "active", updatedAt := now })
      if r.2 then .ok (r.1, "Model " ++ modelId ++ " activated successfully")
      else .error "Failed to activate model"

/-- `archive_risk_model` (lines 302-337): find the target (the query does not
filter by status), reject archiving when the target is active and at most one
model is active system-wide, otherwise set `status := "archived"` and refresh
`updatedAt`; a vacuous rewrite (`modified_count == 0`) is an error. -/
def archive_risk_model (store : List RiskModelDoc) (modelId : String)
    (version : Option Nat) (now : Nat) :
    Except String (List RiskModelDoc × String) :=
  match findModel store modelId version with
  | none => .error "Risk model not found"
  | some m =>
    if m.status = "active" ∧ countActive store ≤ 1 then
      .error "Cannot archive the only active model. Activate another model first."
    else
      let r := updateFirst store (fun d => d.docId == m.docId)
        (fun d => { d with status := "archived", updatedAt := now })
      if r.2 then .ok (r.1, "Model " ++ modelId ++ " archived successfully")
      else .error "Failed to archive model"

/-- The `RiskModelUpdate` request body (lines 58-63): every field optional. -/
structure RiskModelUpdate where
  description : Option String
  weights : Option (List (String × Rat))
  thresholds : Option (List (String × Rat))
  riskFactors : Option (List RiskFactorDoc)
  status : Option String
deriving DecidableEq, Repr

/-- Python truthiness of an `Optional[str]` field (`if update.description:`):
absent or empty means falsy. -/
def truthyStr : Option String → Bool
  | none => false
  | some s => s != ""

/-- Python truthiness of an optional list/dict field: absent or empty means
falsy. -/
def truthyList {α : Type} : Option (List α) → Bool
  | none => false
  | some l => !l.isEmpty

/-- `update_risk_model` (lines 211-300).  The target is the latest
non-archived version.  If it is `active` and the request does not set status
`archived`, a new draft version is inserted (version+1, fields carried
forward unless the request supplies a truthy replacement, performance reset);
otherwise the found document is updated in place (status `active` rejected in
favor of the activate endpoint).  `newDocId` models the `_id` Mongo assigns
to an inserted document. -/
def update_risk_model (store : List RiskModelDoc) (modelId : String)
    (u : RiskModelUpdate) (newDocId : Nat) (now : Nat) :
    Except String (List RiskModelDoc × RiskModelDoc) :=
  match findLatestNonArchived store modelId with
  | none => .error "Risk model not found"
  | some m =>
    if m.status = "active" ∧ u.status ≠ some "archived" then
      let newModel : RiskModelDoc :=
        { m with
          docId := newDocId
          version := m.version + 1
          status := "draft"
          updatedAt := now
          description := if truthyStr u.description
            then u.description.getD m.description else m.description
          weights := if truthyList u.weights
            then u.weights.getD m.weights else m.weights
          thresholds := if truthyList u.thresholds
            then u.thresholds.getD m.thresholds else m.thresholds
          riskFactors := if truthyList u.riskFactors
            then u.riskFactors.getD m.riskFactors else m.riskFactors
          performance := emptyPerformance }
      .ok (store ++ [newModel], newModel)
    else
      if u.status = some "active" then
        .error "Use the dedicated /activate endpoint to activate a model"
      else
        let r := updateFirst store (fun d => d.docId == m.docId)
          (fun d =>
            { d with
              description := if truthyStr u.description
                then u.description.getD d.description else d.description
              weights := if truthyList u.weights
                then u.weights.getD d.weights else d.weights
              thresholds := if truthyList u.thresholds
                then u.thresholds.getD d.thresholds else d.thresholds
              riskFactors := if truthyList u.riskFactors
                then u.riskFactors.getD d.riskFactors else d.riskFactors
              status := if truthyStr u.status
                then u.status.getD d.status else d.status
              updatedAt := now })
        if r.2 then
          match (r.1.find? (fun d => d.docId == m.docId)) with
          | some updated => .ok (r.1, updated)
          | none => .error "Model update failed"
        else .error "Model update failed"

/-! ### Peer similarity ranker (`find_similar_transactions`, lines 540-778)

We embed the similarity-risk-score computation over the list of neighbors the
vector search returned (lines 612-758). -/

/-- The `risk_assessment` sub-document of a retrieved neighbor; each stored
field is optional (`.get` defaults apply at access: level `"unknown"`, score
`50`, transaction type `"unknown"`, flags `[]`). -/
structure NeighborAssessment where
  level : Option String
  score : Option Rat
  transactionType : Option String
  flags : List String
deriving DecidableEq, Repr

/-- A neighbor as the `$vectorSearch` projection returns it: similarity score
(`none` models an absent `score`, defaulted to `0.5` at line 624), amount
(`.get("amount", 0)` folded into the field), and optional risk assessment. -/
structure Neighbor where
  simScore : Option Rat
  amount : Rat
  assessment : Option NeighborAssessment
deriving DecidableEq, Repr

/-- The rank-position weight of line 628:
`1.0 if idx < 5 else max(0.5, 1.0 - ((idx - 5) * 0.05))`. -/
def positionWeight (idx : Nat) : Rat :=
  if idx < 5 then 1 else max (1/2) (1 - ((idx - 5 : Nat) : Rat) * (5/100))

/-- The bucketed amount similarity of lines 642-655; defaults to `1.0` unless
both amounts are positive. -/
def amountSimilarity (currentAmount similarAmount : Rat) : Rat :=
  if similarAmount > 0 ∧ currentAmount > 0 then
    let ratio := min currentAmount similarAmount / max currentAmount similarAmount
    if ratio > 95/100 then 1
    else if ratio > 8/10 then 8/10
    else if ratio > 5/10 then 6/10
    else 4/10
  else 1

/-- The per-neighbor score object of lines 661-666. -/
structure ScoreEntry where
  similarity : Rat
  riskScore : Rat
  flags : Nat
deriving DecidableEq, Repr

/-- Lines 622-666: weighted similarity, amount similarity,
`final_similarity = weighted*0.7 + amount_similarity*0.3`, normalized stored
risk score and flag count. -/
def scoreEntry (currentAmount : Rat) (idx : Nat) (t : Neighbor) : ScoreEntry :=
  let similarity := t.simScore.getD (1/2)
  let weightedSimilarity := similarity * positionWeight idx
  let riskScore :=
    (match t.assessment with | some a => a.score.getD 50 | none => 50) / 100
  let flagCount :=
    match t.assessment with | some a => a.flags.length | none => 0
  ⟨weightedSimilarity * (7/10) + amountSimilarity currentAmount t.amount * (3/10),
    riskScore, flagCount⟩

/-- The risk-level bucket of a neighbor (lines 669-677): `high` on level
`high` or type `fraudulent`, `medium` on level `medium` or type `suspicious`,
`low` on level `low` or type `legitimate`, and `medium` for anything else. -/
def bucketOf (t : Neighbor) : String :=
  let level :=
    match t.assessment with | some a => a.level.getD "unknown" | none => "unknown"
  let ttype :=
    match t.assessment with
    | some a => a.transactionType.getD "unknown" | none => "unknown"
  if level = "high" ∨ ttype = "fraudulent" then "high"
  else if level = "medium" ∨ ttype = "suspicious" then "medium"
  else if level = "low" ∨ ttype = "legitimate" then "low"
  else "medium"

/-- The score entries that land in bucket `b`, in retrieval order. -/
def bucketEntries (currentAmount : Rat) (ns : List Neighbor) (b : String) :
    List ScoreEntry :=
  (ns.enum.filter (fun p => bucketOf p.2 == b)).map
    (fun p => scoreEntry currentAmount p.1 p.2)

/-- `total_weight` of a bucket with flag coefficient `c` (`0.1` in the
high-risk branch, line 694; `0.2` in the mixed branch, line 726). -/
def bucketTotalWeight (c : Rat) (l : List ScoreEntry) : Rat :=
  (l.map (fun e => e.similarity * (1 + (e.flags : Rat) * c))).sum

/-- `weighted_sum` of a bucket with flag coefficient `c`. -/
def bucketWeightedSum (c : Rat) (l : List ScoreEntry) : Rat :=
  (l.map (fun e => e.riskScore * (e.similarity * (1 + (e.flags : Rat) * c)))).sum

/-- The `similarity_risk_score` computation of `find_similar_transactions`
(lines 612-758).  `powFn` is the real-exponentiation collaborator for
`avg_similarity ** 1.5` of line 713 (transcendental, so a parameter).
`totalTxCount` is `_get_total_transaction_count()` used by the zero-neighbor
fallback (lines 749-758, which bypasses the clamp of line 740). -/
def find_similar_transactions_score (powFn : Rat → Rat) (currentAmount : Rat)
    (ns : List Neighbor) (totalTxCount : Nat) : Rat :=
  if ns.isEmpty then
    (if totalTxCount > 10 then 3/4 else 1/2)
  else
    let hs := bucketEntries currentAmount ns "high"
    let ms := bucketEntries currentAmount ns "medium"
    let ls := bucketEntries currentAmount ns "low"
    let raw :=
      if !hs.isEmpty then
        let totalWeight := bucketTotalWeight (1/10) hs
        let weightedSum := bucketWeightedSum (1/10) hs
        let highRiskFactor := min 1 (weightedSum / max 1 totalWeight)
        let highRiskBoost := min (2/10) ((hs.length : Rat) * (5/100))
        min 1 (highRiskFactor + highRiskBoost)
      else if !ls.isEmpty && ms.isEmpty then
        let avgSimilarity := (ls.map (fun e => e.similarity)).sum / (ls.length : Rat)
        max (5/100) (1 - powFn avgSimilarity)
      else
        let all := hs ++ ms ++ ls
        if !all.isEmpty then
          let totalWeight := bucketTotalWeight (2/10) all
          let weightedSum := bucketWeightedSum (2/10) all
          if totalWeight > 0 then weightedSum / totalWeight else 1/2
        else 1/2
    max 0 (min 1 raw)

/-! ### Spec-side formulas, for refinement comparison -/

/-- Modelled from the spec's words (§4.2 / claim C2), for comparison with
`calculate_risk_score`: zeroed risks are already zero here, so
`transactionRisk = 100 × Σ(risk_i × weight_i)` over the four detector risks
(the unused pattern factor contributes 0), `maxFactor = 100 × max(risk_i)`,
the two-branch combination, and a clamp to `[0, 100]`. -/
def specCombinedScore (a l d v base : Rat) : Rat :=
  let tRisk := 100 * (a * (25/100) + l * (25/100) + d * (20/100) + v * (15/100))
  let maxFactor := 100 * max a (max l (max d v))
  let combined :=
    if maxFactor ≥ 80 then (5/10) * tRisk + (3/10) * maxFactor + (2/10) * base
    else (7/10) * tRisk + (3/10) * base
  max 0 (min combined 100)

/-- Modelled from the claim C9 / spec §4.3 words for the non-empty high-risk
bucket: the *weighted mean* of the high-bucket risk scores with weight
`finalSimilarity×(1+0.1×flagCount)`, plus the boost `min(0.2, 0.05×n)`,
clamped to 1.0. -/
def claimHighBucketScore (hs : List ScoreEntry) : Rat :=
  min 1 (bucketWeightedSum (1/10) hs / bucketTotalWeight (1/10) hs +
    min (2/10) ((hs.length : Rat) * (5/100)))

/-! ### Helper lemmas -/

/-- Python's `x if x > 0 else 0` is the identity on nonnegative values. -/
lemma posPart_eq {x : Rat} (hx : 0 ≤ x) : (if x > 0 then x else 0) = x := by
  by_cases h : x > 0
  · simp [h]
  · have hx0 : x = 0 := le_antisymm (not_lt.mp h) hx
    simp [hx0]

/-- The amount detector on a well-formed input with positive history reduces
to its z-score / ratio formulas. -/
lemma check_amount_anomaly_ok (amount avg std : Rat)
    (havg : 0 < avg) (hstd : 0 < std) :
    check_amount_anomaly (.ok ⟨amount, avg, std⟩) =
      (amountFlag (|amount - avg| / std) (amount / avg),
       if amount / avg ≥ 10 then 1
       else if amount / avg ≥ 5 then 85/100 + ((amount / avg - 5) / 5) * (15/100)
       else min 1 ((|amount - avg| / std) / (AMOUNT_THRESHOLD_MULTIPLIER * 2))) := by
  simp only [check_amount_anomaly]
  rw [if_neg (by simp [ne_of_gt havg, ne_of_gt hstd])]
  rw [if_pos hstd, if_pos havg]

/-- `countActive` distributes over list append. -/
lemma countActive_append (l₁ l₂ : List RiskModelDoc) :
    countActive (l₁ ++ l₂) = countActive l₁ + countActive l₂ := by
  simp [countActive, List.filter_append]

/-- A store none of whose documents is `active` has `countActive` zero. -/
lemma countActive_eq_zero {l : List RiskModelDoc}
    (h : ∀ d ∈ l, d.status ≠ "active") : countActive l = 0 := by
  simp only [countActive, List.length_eq_zero, List.filter_eq_nil_iff]
  intro d hd
  simp [h d hd]

/-- A store whose documents' `_id`s are distinct splits around any member
document, and `updateFirst` keyed on that document's `_id` rewrites exactly
that document; the modified flag records whether the rewrite changed it. -/
lemma updateFirst_eq_of_mem_nodup (store : List RiskModelDoc)
    (m : RiskModelDoc) (f : RiskModelDoc → RiskModelDoc) (hm : m ∈ store)
    (hnodup : (store.map RiskModelDoc.docId).Nodup) :
    ∃ pre post, store = pre ++ m :: post ∧
      (updateFirst store (fun d => d.docId == m.docId) f).1 = pre ++ f m :: post ∧
      (updateFirst store (fun d => d.docId == m.docId) f).2 = decide (f m ≠ m) := by
  induction store with
  | nil => cases hm
  | cons d rest ih =>
    by_cases hd : d.docId = m.docId
    · have hdm : d = m := by
        rcases List.mem_cons.mp hm with h | h
        · exact h.symm
        · exfalso
          have hmem : m.docId ∈ rest.map RiskModelDoc.docId :=
            List.mem_map_of_mem RiskModelDoc.docId h
          have hni := (List.nodup_cons.mp hnodup).1
          rw [hd] at hni
          exact hni hmem
      subst hdm
      exact ⟨[], rest, rfl, by simp [updateFirst], by simp [updateFirst]⟩
    · have hm' : m ∈ rest := by
        rcases List.mem_cons.mp hm with h | h
        · exact absurd (by rw [h]) hd
        · exact h
      obtain ⟨pre, post, hsplit, hupd, hflag⟩ :=
        ih hm' (List.nodup_cons.mp hnodup).2
      refine ⟨d :: pre, post, by rw [List.cons_append, ← hsplit], ?_, ?_⟩
      · simp only [updateFirst, beq_iff_eq, if_neg hd]
        rw [hupd, List.cons_append]
      · simp only [updateFirst, beq_iff_eq, if_neg hd]
        rw [hflag]

/-- With a nonnegative distance function, the minimum distance computed by
the location detector's loop is nonnegative. -/
lemma locMinDist_nonneg (dist : Rat → Rat → Rat → Rat → Rat)
    (hdist : ∀ a b x y, 0 ≤ dist a b x y) (tx ty : Rat)
    (locs : List (List Rat)) :
    ∀ d, locMinDist dist tx ty locs = some d → 0 ≤ d := by
  simp only [locMinDist]
  have main : ∀ (ls : List (List Rat)) (acc : Option Rat),
      (∀ x, acc = some x → 0 ≤ x) →
      ∀ d, List.foldl (fun acc lc =>
          match lc with
          | [x, y] =>
            let dd := dist tx ty x y
            match acc with
            | none => some dd
            | some m => some (min m dd)
          | _ => acc) acc ls = some d → 0 ≤ d := by
    intro ls
    induction ls with
    | nil => intro acc hacc d hd; exact hacc d hd
    | cons lc rest ih =>
      intro acc hacc d hd
      rw [List.foldl_cons] at hd
      refine ih _ ?_ d hd
      intro x hx
      rcases lc with _ | ⟨x0, _ | ⟨y0, _ | _⟩⟩ <;> dsimp only at hx
      · exact hacc x hx
      · exact hacc x hx
      · rcases hacc2 : acc with _ | m
        · rw [hacc2] at hx
          dsimp only at hx
          cases hx
          exact hdist tx ty x0 y0
        · rw [hacc2] at hx
          dsimp only at hx
          cases hx
          exact le_min (hacc m hacc2) (hdist tx ty x0 y0)
      · exact hacc x hx
  exact main locs none (fun x hx => by cases hx)

/-! ### Claim theorems -/

/-- **C10** — if any of the four anomaly detectors raises internally (the
`try/except` body fails, modelled by an `.error` input), the detector returns
`(anomalous = false, risk = 0)`, so the evaluation proceeds with that factor
silently contributing zero risk instead of failing. -/
theorem claimC10_detector_exception_default (e : String)
    (dist : Rat → Rat → Rat → Rat → Rat) (t : Rat) (cid : String) :
    check_amount_anomaly (.error e) = (false, 0) ∧
    check_location_anomaly dist (.error e) = (false, 0) ∧
    check_device_anomaly (.error e) = (false, 0) ∧
    check_transaction_velocity t cid (.error e) = (false, 0) :=
  ⟨rfl, rfl, rfl, rfl⟩

/-- **C5** (counterexample) — the claim asserts that a ratio of exactly 7
yields risk `0.85 + 0.2×0.15 = 0.88`; on the code (amount 7, average 1,
standard deviation 1, hence ratio 7) the risk is
`0.85 + ((7−5)/5)×0.15 = 0.91`, not `0.88`. -/
theorem claimC5_counterexample :
    check_amount_anomaly (.ok ⟨7, 1, 1⟩) = (true, 91/100) ∧
    ((91 : Rat)/100 ≠ 88/100) := by
  refine ⟨?_, by norm_num⟩
  rw [check_amount_anomaly_ok 7 1 1 (by norm_num) (by norm_num)]
  norm_num [amountFlag, AMOUNT_THRESHOLD_MULTIPLIER]

/-- **C5** (amended) — for the amount detector with non-degenerate history
(`avg > 0`, `std > 0`): a ratio of exactly 10 yields risk exactly 1.0 (and the
anomalous flag), and a ratio of exactly 7 yields risk
`0.85 + ((7−5)/5)×0.15 = 0.91` (not 0.88 as the spec's example computes). -/
theorem claimC5_amended (avg std : Rat) (havg : 0 < avg) (hstd : 0 < std) :
    check_amount_anomaly (.ok ⟨10 * avg, avg, std⟩) = (true, 1) ∧
    check_amount_anomaly (.ok ⟨7 * avg, avg, std⟩) = (true, 91/100) := by
  have havg' : avg ≠ 0 := ne_of_gt havg
  constructor
  · rw [check_amount_anomaly_ok _ _ _ havg hstd]
    have hr : 10 * avg / avg = 10 := by field_simp
    rw [hr, if_pos (by norm_num : (10 : Rat) ≥ 10)]
    simp only [amountFlag, Prod.mk.injEq, Bool.or_eq_true, decide_eq_true_eq]
    exact ⟨Or.inr (by norm_num), trivial⟩
  · rw [check_amount_anomaly_ok _ _ _ havg hstd]
    have hr : 7 * avg / avg = 7 := by field_simp
    rw [hr, if_neg (by norm_num), if_pos (by norm_num : (7 : Rat) ≥ 5)]
    simp only [amountFlag, Prod.mk.injEq, Bool.or_eq_true, decide_eq_true_eq]
    exact ⟨Or.inr (by norm_num), by norm_num⟩

/-- **C2** — with the four detector risks in `[0,1]` (already zeroed for
non-anomalous detectors), the unused pattern factor at 0, and a customer
baseline in `[0,100]`, `_calculate_risk_score` computes exactly the formula
the spec states (`specCombinedScore`); and the spec's worked example holds
exactly: amount risk 1.0 alone with baseline 0 gives 42.5, level medium. -/
theorem claimC2_aggregator (a l d v base : Rat)
    (ha0 : 0 ≤ a) (ha1 : a ≤ 1) (hl0 : 0 ≤ l) (hl1 : l ≤ 1)
    (hd0 : 0 ≤ d) (hd1 : d ≤ 1) (hv0 : 0 ≤ v) (hv1 : v ≤ 1)
    (hb0 : 0 ≤ base) (hb1 : base ≤ 100) :
    calculate_risk_score a l d v 0 base = specCombinedScore a l d v base ∧
    calculate_risk_score 1 0 0 0 0 0 = 85/2 ∧
    determine_risk_level (calculate_risk_score 1 0 0 0 0 0) = "medium" := by
  have hex : calculate_risk_score 1 0 0 0 0 0 = 85/2 := by
    norm_num [calculate_risk_score, WEIGHT_AMOUNT, WEIGHT_LOCATION,
      WEIGHT_DEVICE, WEIGHT_VELOCITY, WEIGHT_PATTERN]
  refine ⟨?_, hex, by rw [hex]; norm_num [determine_risk_level]⟩
  have hM0 : 0 ≤ max a (max l (max d v)) := le_trans ha0 (le_max_left _ _)
  simp only [calculate_risk_score, specCombinedScore, WEIGHT_AMOUNT,
    WEIGHT_LOCATION, WEIGHT_DEVICE, WEIGHT_VELOCITY, WEIGHT_PATTERN,
    posPart_eq ha0, posPart_eq hl0, posPart_eq hd0, posPart_eq hv0]
  rw [if_neg (lt_irrefl (0 : Rat)), max_eq_left hv0]
  have hcond : (max a (max l (max d v)) * 100 ≥ 80) ↔
      (100 * max a (max l (max d v)) ≥ 80) := by
    constructor <;> intro h <;> linarith
  by_cases hc : 100 * max a (max l (max d v)) ≥ 80
  · rw [if_pos (hcond.mpr hc), if_pos hc]
    have hcomb : (a * (25/100) + l * (25/100) + d * (20/100) + v * (15/100) +
        0 * (15/100)) * 100 * (5/10) + max a (max l (max d v)) * 100 * (3/10) +
        base * (2/10) =
        (5/10) * (100 * (a * (25/100) + l * (25/100) + d * (20/100) + v * (15/100))) +
        (3/10) * (100 * max a (max l (max d v))) + (2/10) * base := by ring
    rw [hcomb, eq_comm, max_eq_right]
    refine le_min ?_ (by norm_num)
    nlinarith [hM0, ha0, hl0, hd0, hv0, hb0]
  · rw [if_neg (fun h => hc (hcond.mp h)), if_neg hc]
    have hcomb : (a * (25/100) + l * (25/100) + d * (20/100) + v * (15/100) +
        0 * (15/100)) * 100 * (7/10) + base * (3/10) =
        (7/10) * (100 * (a * (25/100) + l * (25/100) + d * (20/100) + v * (15/100))) +
        (3/10) * base := by ring
    rw [hcomb, eq_comm, max_eq_right]
    refine le_min ?_ (by norm_num)
    nlinarith [ha0, hl0, hd0, hv0, hb0]

/-- If the customer collection is non-empty, the lookup of
`evaluate_transaction` always produces a customer (worst case, the arbitrary
first record of the collection). -/
lemma lookup_customer_isSome (customers : List Customer) (cid : String)
    (h : customers ≠ []) : ∃ c, lookup_customer customers cid = some c := by
  unfold lookup_customer
  cases h1 : customers.find? (fun c => c.id == cid) with
  | some c => exact ⟨c, rfl⟩
  | none =>
    cases h2 : customers.find? (fun c => c.accountNumber == cid) with
    | some c => exact ⟨c, rfl⟩
    | none =>
      cases customers with
      | nil => exact absurd rfl h
      | cons c cs => exact ⟨c, rfl⟩

/-- **C3** (counterexample) — the claim asserts that any transaction whose
`customer_id` matches no stored customer short-circuits to score 70 / level
high / flag `customer_not_found`.  On the code this is false whenever the
customer collection is non-empty: the lookup falls back to the first stored
customer (fraud_detection.py lines 115-124) and the detectors run.  Concrete
input: one stored customer (`cust-1`/`acct-1`), transaction customer id
`zzz` matching neither; the evaluation returns score 17.5, level low, flags
`[unusual_amount, unknown_device]` — not the claimed short-circuit. -/
theorem claimC3_counterexample :
    (Transaction.customerId ⟨"zzz", 100, [], "", "", 0⟩ ≠ "") ∧
    (Customer.id ⟨"cust-1", "acct-1", 0, 0, [], [], some 0⟩ ≠ "zzz") ∧
    (Customer.accountNumber ⟨"cust-1", "acct-1", 0, 0, [], [], some 0⟩ ≠ "zzz") ∧
    evaluate_transaction (fun _ _ _ _ => 0)
      [⟨"cust-1", "acct-1", 0, 0, [], [], some 0⟩] (.ok [])
      ⟨"zzz", 100, [], "", "", 0⟩ =
      ⟨35/2, "low", ["unusual_amount", "unknown_device"], "legitimate",
        some ⟨0, 60, 0, 50, 0, 0⟩⟩ ∧
    (⟨35/2, "low", ["unusual_amount", "unknown_device"], "legitimate",
        some ⟨0, 60, 0, 50, 0, 0⟩⟩ : RiskAssessment) ≠
      ⟨70, "high", ["customer_not_found"], "suspicious", none⟩ := by
  refine ⟨by decide, by decide, by decide, ?_,
    fun heq => by simpa using congrArg RiskAssessment.level heq⟩
  have ha : check_amount_anomaly (.ok ⟨100, 0, 0⟩) = (true, 6/10) := by
    simp [check_amount_anomaly]
  have hloc : check_location_anomaly (fun _ _ _ _ => 0) (.ok ⟨[], []⟩) = (false, 0) := rfl
  have hdev : check_device_anomaly (.ok ⟨"", "", []⟩) = (true, 1/2) := by
    simp [check_device_anomaly]
  have hvel : check_transaction_velocity 0 "zzz" (.ok []) = (false, 0) := by
    norm_num [check_transaction_velocity, velocityFlag, VELOCITY_THRESHOLD]
  have hcalc : calculate_risk_score (3/5) 0 (1/2) 0 0 0 = 35/2 := by
    norm_num [calculate_risk_score, WEIGHT_AMOUNT, WEIGHT_LOCATION,
      WEIGHT_DEVICE, WEIGHT_VELOCITY, WEIGHT_PATTERN]
  simp only [evaluate_transaction]
  rw [if_neg (by decide : ¬("zzz" : String) = "")]
  rw [show lookup_customer [(⟨"cust-1", "acct-1", 0, 0, [], [], some 0⟩ : Customer)] "zzz" =
      some ⟨"cust-1", "acct-1", 0, 0, [], [], some 0⟩ from by decide]
  simp only [ha, hloc, hdev, hvel]
  norm_num [determine_risk_level, round2, hcalc]
  decide

/-- **C3** (amended) — a transaction with no `customer_id` short-circuits to
score 50 / level medium / flag `missing_customer_reference`, as claimed; the
score-70 `customer_not_found` short-circuit, however, occurs exactly when the
customer collection holds no record at all: with any stored customer the code
falls back (account-number match, then the arbitrary first customer) and runs
the detectors instead. -/
theorem claimC3_amended (dist : Rat → Rat → Rat → Rat → Rat)
    (customers : List Customer) (txStore : Except String (List StoredTx))
    (tx : Transaction) :
    (tx.customerId = "" →
      evaluate_transaction dist customers txStore tx =
        ⟨50, "medium", ["missing_customer_reference"], "suspicious", none⟩) ∧
    (tx.customerId ≠ "" → customers = [] →
      evaluate_transaction dist customers txStore tx =
        ⟨70, "high", ["customer_not_found"], "suspicious", none⟩) ∧
    (tx.customerId ≠ "" → customers ≠ [] →
      evaluate_transaction dist customers txStore tx ≠
        ⟨70, "high", ["customer_not_found"], "suspicious", none⟩) := by
  refine ⟨fun h => by simp [evaluate_transaction, h], ?_, ?_⟩
  · intro h hc
    subst hc
    simp [evaluate_transaction, h, lookup_customer]
  · intro h hc
    obtain ⟨c, hlk⟩ := lookup_customer_isSome customers tx.customerId hc
    simp only [evaluate_transaction, if_neg h, hlk]
    intro heq
    simpa using congrArg RiskAssessment.diagnostics heq

/-- Witness for C3: the missing-`customer_id` short-circuit at a concrete
transaction. -/
theorem claimC3_witness :
    evaluate_transaction (fun _ _ _ _ => 0) [] (.ok []) ⟨"", 0, [], "", "", 0⟩ =
      ⟨50, "medium", ["missing_customer_reference"], "suspicious", none⟩ :=
  (claimC3_amended (fun _ _ _ _ => 0) [] (.ok []) ⟨"", 0, [], "", "", 0⟩).1 rfl

/-- **C1** — for any store and any existing target model that is neither
archived nor already active, activation succeeds and leaves exactly one
`active` model across the whole store — the activated target — and every
previously-active model has been set to `inactive`; activating an archived
model is rejected; activating an already-active model succeeds as a no-op
(the store is returned unchanged).  Hypothesis: document `_id`s are unique
(as in MongoDB).  The source serializes the whole read-modify-write under
`activation_lock` inside one store transaction, so this sequential
postcondition is the one each concurrent caller observes. -/
theorem claimC1_activate (store : List RiskModelDoc) (mid : String)
    (v : Option Nat) (now : Nat) (m : RiskModelDoc)
    (hfind : findModel store mid v = some m)
    (hnodup : (store.map RiskModelDoc.docId).Nodup) :
    (m.status ≠ "active" → m.status ≠ "archived" →
      ∃ store', activate_risk_model store mid v now =
          .ok (store', "Model " ++ mid ++ " activated successfully") ∧
        countActive store' = 1 ∧
        (∀ d ∈ store', d.status = "active" →
          d = { m with status := "active", updatedAt := now }) ∧
        (∀ d ∈ store, d.status = "active" →
          { d with status := "inactive", updatedAt := now } ∈ store')) ∧
    (m.status = "archived" →
      activate_risk_model store mid v now =
        .error "Cannot activate an archived model") ∧
    (m.status = "active" →
      activate_risk_model store mid v now =
        .ok (store, "Model " ++ mid ++ " is already active")) := by
  have hm : m ∈ store := List.mem_of_find?_eq_some hfind
  refine ⟨?_, ?_, ?_⟩
  · intro hact harch
    have hdm : (if m.status == "active"
        then { m with status := "inactive", updatedAt := now } else m) = m := by
      simp [hact]
    have hmemD : m ∈ store.map (fun d => if d.status == "active"
        then { d with status := "inactive", updatedAt := now } else d) :=
      List.mem_map.mpr ⟨m, hm, hdm⟩
    have hnodupD : ((store.map (fun d => if d.status == "active"
        then { d with status := "inactive", updatedAt := now } else d)).map
          RiskModelDoc.docId).Nodup := by
      rw [List.map_map]
      have h : store.map (RiskModelDoc.docId ∘ fun d => if d.status == "active"
          then { d with status := "inactive", updatedAt := now } else d) =
          store.map RiskModelDoc.docId := by
        apply List.map_congr_left
        intro a _
        by_cases h : a.status == "active" <;> simp [Function.comp, h]
      rw [h]
      exact hnodup
    have hnact : ∀ d ∈ store.map (fun d => if d.status == "active"
        then { d with status := "inactive", updatedAt := now } else d),
        d.status ≠ "active" := by
      intro d hd
      obtain ⟨a, _, rfl⟩ := List.mem_map.mp hd
      by_cases h : a.status == "active"
      · simp [h]
      · rw [if_neg h]
        simpa using h
    obtain ⟨pre, post, hsplit, hupd, hflag⟩ :=
      updateFirst_eq_of_mem_nodup _ m
        (fun d => { d with status := "active", updatedAt := now }) hmemD hnodupD
    have hne : ({ m with status := "active", updatedAt := now } : RiskModelDoc) ≠ m :=
      fun h => hact (congrArg RiskModelDoc.status h).symm
    have hpre : ∀ d ∈ pre, d.status ≠ "active" := fun d hd =>
      hnact d (hsplit ▸ List.mem_append_left _ hd)
    have hpost : ∀ d ∈ post, d.status ≠ "active" := fun d hd =>
      hnact d (hsplit ▸ List.mem_append_right _ (List.mem_cons_of_mem _ hd))
    refine ⟨pre ++ { m with status := "active", updatedAt := now } :: post,
      ?_, ?_, ?_, ?_⟩
    · simp only [activate_risk_model, hfind]
      rw [if_neg hact, if_neg harch]
      simp only [hflag, hupd, decide_eq_true hne, if_pos]
    · rw [countActive_append, countActive_eq_zero hpre]
      have h0 : (post.filter (fun d => d.status == "active")).length = 0 :=
        countActive_eq_zero hpost
      have h2 : countActive ({ m with status := "active", updatedAt := now } :: post)
          = 1 := by
        simp only [countActive, List.filter_cons]
        rw [show (({ m with status := "active", updatedAt := now } :
            RiskModelDoc).status == "active") = true from by simp,
          if_pos rfl, List.length_cons, h0]
      rw [h2]
    · intro d hd hdact
      rcases List.mem_append.mp hd with h | h
      · exact absurd hdact (hpre d h)
      · rcases List.mem_cons.mp h with h' | h'
        · exact h'
        · exact absurd hdact (hpost d h')
    · intro d hd hdact
      have hdd : (if d.status == "active"
          then { d with status := "inactive", updatedAt := now } else d) =
          { d with status := "inactive", updatedAt := now } := by
        simp [hdact]
      have hmem2 : { d with status := "inactive", updatedAt := now } ∈
          store.map (fun d => if d.status == "active"
            then { d with status := "inactive", updatedAt := now } else d) :=
        List.mem_map.mpr ⟨d, hd, hdd⟩
      rw [hsplit] at hmem2
      rcases List.mem_append.mp hmem2 with h | h
      · exact List.mem_append_left _ h
      · rcases List.mem_cons.mp h with h' | h'
        · exfalso
          have hdocid : d.docId = m.docId := by
            simpa using congrArg RiskModelDoc.docId h'
          have hdm' : d = m := List.inj_on_of_nodup_map hnodup hd hm hdocid
          exact hact (hdm' ▸ hdact)
        · exact List.mem_append_right _ (List.mem_cons_of_mem _ h')
  · intro harch
    simp only [activate_risk_model, hfind]
    rw [if_neg (fun h => by rw [harch] at h; exact absurd h (by decide)),
      if_pos harch]
  · intro hact
    simp only [activate_risk_model, hfind]
    rw [if_pos hact]

/-- Witness for C1: activating a draft model while another model is active
leaves exactly one active model, the target. -/
theorem claimC1_witness :
    ∃ store', activate_risk_model
      [⟨1, "n", 1, "active", 0, 0, "d", [], [], [], ⟨none, none, none⟩⟩,
       ⟨2, "p", 1, "draft", 0, 0, "d", [], [], [], ⟨none, none, none⟩⟩]
      "p" none 5 =
      .ok (store', "Model " ++ "p" ++ " activated successfully") ∧
      countActive store' = 1 ∧
      (∀ d ∈ store', d.status = "active" →
        d = { (⟨2, "p", 1, "draft", 0, 0, "d", [], [], [], ⟨none, none, none⟩⟩ :
          RiskModelDoc) with status := "active", updatedAt := 5 }) ∧
      (∀ d ∈ [(⟨1, "n", 1, "active", 0, 0, "d", [], [], [], ⟨none, none, none⟩⟩ :
          RiskModelDoc),
        ⟨2, "p", 1, "draft", 0, 0, "d", [], [], [], ⟨none, none, none⟩⟩],
        d.status = "active" →
        { d with status := "inactive", updatedAt := 5 } ∈ store') :=
  (claimC1_activate
    [⟨1, "n", 1, "active", 0, 0, "d", [], [], [], ⟨none, none, none⟩⟩,
     ⟨2, "p", 1, "draft", 0, 0, "d", [], [], [], ⟨none, none, none⟩⟩]
    "p" none 5 ⟨2, "p", 1, "draft", 0, 0, "d", [], [], [], ⟨none, none, none⟩⟩
    (by decide) (by decide)).1 (by decide) (by decide)

/-- **C4** — every detector's risk output lies in `[0,1]` (for the location
detector, under the assumption that the collaborating distance function is
nonnegative, which the haversine formula is), and each detector's anomalous
flag is monotone in its underlying metric: the z-score/ratio pair for the
amount detector, the minimum distance for the location detector, and the
trailing-window count for the velocity detector. -/
theorem claimC4_detectors :
    (∀ inp : Except String AmountInput,
      0 ≤ (check_amount_anomaly inp).2 ∧ (check_amount_anomaly inp).2 ≤ 1) ∧
    (∀ (dist : Rat → Rat → Rat → Rat → Rat) (inp : Except String LocationInput),
      (∀ a b x y, 0 ≤ dist a b x y) →
      0 ≤ (check_location_anomaly dist inp).2 ∧
        (check_location_anomaly dist inp).2 ≤ 1) ∧
    (∀ inp : Except String DeviceInput,
      0 ≤ (check_device_anomaly inp).2 ∧ (check_device_anomaly inp).2 ≤ 1) ∧
    (∀ (t : Rat) (cid : String) (store : Except String (List StoredTx)),
      0 ≤ (check_transaction_velocity t cid store).2 ∧
        (check_transaction_velocity t cid store).2 ≤ 1) ∧
    (∀ z₁ z₂ r₁ r₂ : Rat, z₁ ≤ z₂ → r₁ ≤ r₂ →
      amountFlag z₁ r₁ = true → amountFlag z₂ r₂ = true) ∧
    (∀ d₁ d₂ : Rat, d₁ ≤ d₂ → locationFlag d₁ = true → locationFlag d₂ = true) ∧
    (∀ c₁ c₂ : Nat, c₁ ≤ c₂ → velocityFlag c₁ = true → velocityFlag c₂ = true) := by
  refine ⟨?_, ?_, ?_, ?_, ?_, ?_, ?_⟩
  · intro inp
    cases inp with
    | error e => exact ⟨le_refl 0, show (0:Rat) ≤ 1 by norm_num⟩
    | ok i =>
      simp only [check_amount_anomaly]
      by_cases hg : i.avgAmount = 0 ∨ i.stdAmount = 0
      · rw [if_pos hg]; norm_num
      · rw [if_neg hg]
        have hz0 : 0 ≤ (if i.stdAmount > 0
            then |i.amount - i.avgAmount| / i.stdAmount else 0) := by
          split_ifs with h
          · exact div_nonneg (abs_nonneg _) (le_of_lt h)
          · exact le_refl 0
        set z := if i.stdAmount > 0
          then |i.amount - i.avgAmount| / i.stdAmount else 0 with hz
        set ratio := if i.avgAmount > 0 then i.amount / i.avgAmount else 0 with hr
        dsimp only
        split_ifs with h1 h2
        · norm_num
        · push_neg at h1
          constructor <;> nlinarith [h2, h1]
        · refine ⟨le_min (by norm_num) ?_, min_le_left _ _⟩
          exact div_nonneg hz0 (by norm_num [AMOUNT_THRESHOLD_MULTIPLIER])
  · intro dist inp hdist
    cases inp with
    | error e => exact ⟨le_refl 0, show (0:Rat) ≤ 1 by norm_num⟩
    | ok i =>
      simp only [check_location_anomaly]
      rcases htx : i.txCoords with _ | ⟨tx, _ | ⟨ty, _ | _⟩⟩ <;> dsimp only
      · norm_num
      · norm_num
      · by_cases he : i.usualLocations.isEmpty
        · rw [if_pos he]; norm_num
        · rw [if_neg he]
          rcases hmd : locMinDist dist tx ty i.usualLocations with _ | dd
          · norm_num
          · have hd0 : 0 ≤ dd := locMinDist_nonneg dist hdist tx ty _ dd hmd
            dsimp only
            by_cases hfl : locationFlag dd
            · rw [if_pos hfl]
              refine ⟨le_trans (by norm_num) (le_max_left _ _), ?_⟩
              exact max_le (by norm_num) (min_le_left _ _)
            · rw [if_neg hfl]
              refine ⟨le_min (by norm_num) ?_, le_trans (min_le_left _ _) (by norm_num)⟩
              exact div_nonneg hd0 (by norm_num [MAX_LOCATION_DISTANCE_KM])
      · norm_num
  · intro inp
    cases inp with
    | error e => exact ⟨le_refl 0, show (0:Rat) ≤ 1 by norm_num⟩
    | ok i =>
      simp only [check_device_anomaly]
      split_ifs <;> norm_num
  · intro t cid store
    cases store with
    | error e => exact ⟨le_refl 0, show (0:Rat) ≤ 1 by norm_num⟩
    | ok txs =>
      simp only [check_transaction_velocity]
      refine ⟨le_min (by norm_num) ?_, min_le_left _ _⟩
      exact div_nonneg (Nat.cast_nonneg _) (by norm_num [VELOCITY_THRESHOLD])
  · intro z₁ z₂ r₁ r₂ hz hr h
    simp only [amountFlag, Bool.or_eq_true, decide_eq_true_eq] at h ⊢
    rcases h with h | h
    · exact Or.inl (lt_of_lt_of_le h hz)
    · exact Or.inr (lt_of_lt_of_le h hr)
  · intro d₁ d₂ hd h
    simp only [locationFlag, decide_eq_true_eq] at h ⊢
    exact lt_of_lt_of_le h hd
  · intro c₁ c₂ hc h
    simp only [velocityFlag, decide_eq_true_eq, VELOCITY_THRESHOLD] at h ⊢
    omega

/-- Witness for C4: the location-detector bound instantiated at the constant
zero distance function and a concrete input. -/
theorem claimC4_witness :
    0 ≤ (check_location_anomaly (fun _ _ _ _ => 0)
      (.ok ⟨[0, 0], [[3, 4]]⟩)).2 ∧
    (check_location_anomaly (fun _ _ _ _ => 0) (.ok ⟨[0, 0], [[3, 4]]⟩)).2 ≤ 1 :=
  claimC4_detectors.2.1 (fun _ _ _ _ => 0) (.ok ⟨[0, 0], [[3, 4]]⟩)
    (fun _ _ _ _ => le_refl 0)

/-- Witness for C5, at average 2, standard deviation 3, amount 20
(ratio exactly 10). -/
theorem claimC5_witness :
    check_amount_anomaly (.ok ⟨10 * 2, 2, 3⟩) = (true, 1) :=
  (claimC5_amended 2 3 (by norm_num) (by norm_num)).1

/-- **C6** — archiving a model that is active while at most one model is
active system-wide (i.e. it is the sole active model) is rejected with the
specific error, and since the handler raises before issuing any write, every
record is left unchanged; in every other case the archive operation succeeds
and rewrites exactly the target document to status `archived` (refreshing
`updatedAt`), leaving all other documents untouched.  Hypotheses: the target
exists, document `_id`s are unique, and the clock has advanced past the
target's `updatedAt`. -/
theorem claimC6_archive (store : List RiskModelDoc) (mid : String)
    (v : Option Nat) (now : Nat) (m : RiskModelDoc)
    (hfind : findModel store mid v = some m)
    (hnodup : (store.map RiskModelDoc.docId).Nodup)
    (hnow : m.updatedAt ≠ now) :
    (m.status = "active" → countActive store ≤ 1 →
      archive_risk_model store mid v now =
        .error "Cannot archive the only active model. Activate another model first.") ∧
    (¬(m.status = "active" ∧ countActive store ≤ 1) →
      ∃ pre post, store = pre ++ m :: post ∧
        archive_risk_model store mid v now =
          .ok (pre ++ { m with status := "archived", updatedAt := now } :: post,
            "Model " ++ mid ++ " archived successfully")) := by
  have hm : m ∈ store := List.mem_of_find?_eq_some hfind
  constructor
  · intro h1 h2
    simp only [archive_risk_model, hfind]
    rw [if_pos ⟨h1, h2⟩]
  · intro hng
    obtain ⟨pre, post, hsplit, hupd, hflag⟩ :=
      updateFirst_eq_of_mem_nodup store m
        (fun d => { d with status := "archived", updatedAt := now }) hm hnodup
    have hne : ({ m with status := "archived", updatedAt := now } : RiskModelDoc) ≠ m :=
      fun h => hnow (congrArg RiskModelDoc.updatedAt h).symm
    refine ⟨pre, post, hsplit, ?_⟩
    simp only [archive_risk_model, hfind]
    rw [if_neg hng]
    simp only [hflag, hupd, decide_eq_true hne, if_pos]

/-- Witness for C6: archiving the sole active model of a one-model store is
rejected. -/
theorem claimC6_witness :
    archive_risk_model
      [⟨1, "m", 1, "active", 0, 0, "d", [], [], [], ⟨none, none, none⟩⟩]
      "m" none 5 =
      .error "Cannot archive the only active model. Activate another model first." :=
  (claimC6_archive
    [⟨1, "m", 1, "active", 0, 0, "d", [], [], [], ⟨none, none, none⟩⟩]
    "m" none 5 ⟨1, "m", 1, "active", 0, 0, "d", [], [], [], ⟨none, none, none⟩⟩
    (by decide) (by decide) (by decide)).1 rfl (by decide)

/-- **C7** (counterexample) — the claim asserts that double-archiving is
rejected synchronously with no state change.  On the code, archiving an
already-archived model succeeds: the archive query does not filter by status,
the sole-active guard does not apply (the target is not active), and the
`$set` refreshes `updatedAt`, so `modified_count` is 1 and the handler
returns success (and mutates `updatedAt`). -/
theorem claimC7_counterexample :
    archive_risk_model
      [⟨1, "m", 1, "archived", 0, 0, "d", [], [], [], ⟨none, none, none⟩⟩]
      "m" none 1 =
      .ok ([⟨1, "m", 1, "archived", 0, 1, "d", [], [], [], ⟨none, none, none⟩⟩],
        "Model m archived successfully") := rfl

/-- **C7** (amended) — invoking archive on an already-`archived` model is
*not* rejected: it returns success, the target's status stays `archived`, and
the only state change is the refreshed `updatedAt` on the target (all other
documents untouched). -/
theorem claimC7_amended (store : List RiskModelDoc) (mid : String)
    (v : Option Nat) (now : Nat) (m : RiskModelDoc)
    (hfind : findModel store mid v = some m)
    (hnodup : (store.map RiskModelDoc.docId).Nodup)
    (harch : m.status = "archived") (hnow : m.updatedAt ≠ now) :
    ∃ pre post, store = pre ++ m :: post ∧
      archive_risk_model store mid v now =
        .ok (pre ++ { m with updatedAt := now } :: post,
          "Model " ++ mid ++ " archived successfully") ∧
      ({ m with updatedAt := now } : RiskModelDoc).status = "archived" := by
  have hm : m ∈ store := List.mem_of_find?_eq_some hfind
  obtain ⟨pre, post, hsplit, hupd, hflag⟩ :=
    updateFirst_eq_of_mem_nodup store m
      (fun d => { d with status := "archived", updatedAt := now }) hm hnodup
  have hsame : ({ m with status := "archived", updatedAt := now } : RiskModelDoc) =
      { m with updatedAt := now } := by
    rw [← harch]
  have hne : ({ m with status := "archived", updatedAt := now } : RiskModelDoc) ≠ m :=
    fun h => hnow (congrArg RiskModelDoc.updatedAt h).symm
  refine ⟨pre, post, hsplit, ?_, by simp [harch]⟩
  simp only [archive_risk_model, hfind]
  rw [if_neg (fun h => by rw [harch] at h; exact absurd h.1 (by decide))]
  simp only [hflag, hupd, decide_eq_true hne, if_pos]
  rw [hsame]

/-- Witness for C7: double-archiving a concrete one-model store succeeds with
the target still `archived`. -/
theorem claimC7_witness :
    ∃ pre post,
      ([⟨1, "m", 1, "archived", 0, 0, "d", [], [], [], ⟨none, none, none⟩⟩] :
        List RiskModelDoc) =
        pre ++ (⟨1, "m", 1, "archived", 0, 0, "d", [], [], [], ⟨none, none, none⟩⟩ :
          RiskModelDoc) :: post ∧
      archive_risk_model
        [⟨1, "m", 1, "archived", 0, 0, "d", [], [], [], ⟨none, none, none⟩⟩]
        "m" none 3 =
        .ok (pre ++
          ({ (⟨1, "m", 1, "archived", 0, 0, "d", [], [], [], ⟨none, none, none⟩⟩ :
              RiskModelDoc) with updatedAt := 3 }) :: post,
          "Model " ++ "m" ++ " archived successfully") ∧
      ({ (⟨1, "m", 1, "archived", 0, 0, "d", [], [], [], ⟨none, none, none⟩⟩ :
          RiskModelDoc) with updatedAt := 3 }).status = "archived" :=
  claimC7_amended
    [⟨1, "m", 1, "archived", 0, 0, "d", [], [], [], ⟨none, none, none⟩⟩]
    "m" none 3 ⟨1, "m", 1, "archived", 0, 0, "d", [], [], [], ⟨none, none, none⟩⟩
    (by decide) (by decide) rfl (by decide)

/-- **C8** — an update whose target's latest non-archived version is `active`
and whose requested status is not `archived` inserts a new version
(`version + 1`) with status `draft` and a reset (unset) performance summary,
carries forward every field the request does not specify, and appends it to
the store, so every pre-existing document — the active version included — is
left completely unchanged. -/
theorem claimC8_update_fork (store : List RiskModelDoc) (mid : String)
    (u : RiskModelUpdate) (newDocId now : Nat) (m : RiskModelDoc)
    (hfind : findLatestNonArchived store mid = some m)
    (hact : m.status = "active") (hst : u.status ≠ some "archived") :
    ∃ nm, update_risk_model store mid u newDocId now = .ok (store ++ [nm], nm) ∧
      nm.version = m.version + 1 ∧
      nm.status = "draft" ∧
      nm.performance = emptyPerformance ∧
      nm.modelId = m.modelId ∧
      (u.description = none → nm.description = m.description) ∧
      (u.weights = none → nm.weights = m.weights) ∧
      (u.thresholds = none → nm.thresholds = m.thresholds) ∧
      (u.riskFactors = none → nm.riskFactors = m.riskFactors) ∧
      (∀ d ∈ store, d ∈ store ++ [nm]) := by
  refine ⟨{ m with
      docId := newDocId
      version := m.version + 1
      status := "draft"
      updatedAt := now
      description := if truthyStr u.description
        then u.description.getD m.description else m.description
      weights := if truthyList u.weights
        then u.weights.getD m.weights else m.weights
      thresholds := if truthyList u.thresholds
        then u.thresholds.getD m.thresholds else m.thresholds
      riskFactors := if truthyList u.riskFactors
        then u.riskFactors.getD m.riskFactors else m.riskFactors
      performance := emptyPerformance }, ?_, rfl, rfl, rfl, rfl, ?_, ?_, ?_, ?_,
    fun d hd => List.mem_append_left _ hd⟩
  · simp only [update_risk_model, hfind]
    rw [if_pos ⟨hact, hst⟩]
  · intro h; simp [truthyStr, h]
  · intro h; simp [truthyList, h]
  · intro h; simp [truthyList, h]
  · intro h; simp [truthyList, h]

/-- Witness for C8: updating a one-model store whose single model is active,
with an empty update request. -/
theorem claimC8_witness :
    ∃ nm, update_risk_model
      [⟨1, "m", 3, "active", 0, 0, "d", [], [], [], ⟨none, none, none⟩⟩]
      "m" ⟨none, none, none, none, none⟩ 2 7 =
      .ok ([⟨1, "m", 3, "active", 0, 0, "d", [], [], [], ⟨none, none, none⟩⟩] ++ [nm], nm) ∧
      nm.version = 3 + 1 ∧
      nm.status = "draft" ∧
      nm.performance = emptyPerformance ∧
      nm.modelId = "m" ∧
      ((⟨none, none, none, none, none⟩ : RiskModelUpdate).description = none →
        nm.description = "d") ∧
      ((⟨none, none, none, none, none⟩ : RiskModelUpdate).weights = none →
        nm.weights = []) ∧
      ((⟨none, none, none, none, none⟩ : RiskModelUpdate).thresholds = none →
        nm.thresholds = []) ∧
      ((⟨none, none, none, none, none⟩ : RiskModelUpdate).riskFactors = none →
        nm.riskFactors = []) ∧
      (∀ d ∈ [(⟨1, "m", 3, "active", 0, 0, "d", [], [], [], ⟨none, none, none⟩⟩ :
          RiskModelDoc)],
        d ∈ [(⟨1, "m", 3, "active", 0, 0, "d", [], [], [], ⟨none, none, none⟩⟩ :
          RiskModelDoc)] ++ [nm]) :=
  claimC8_update_fork
    [⟨1, "m", 3, "active", 0, 0, "d", [], [], [], ⟨none, none, none⟩⟩]
    "m" ⟨none, none, none, none, none⟩ 2 7
    ⟨1, "m", 3, "active", 0, 0, "d", [], [], [], ⟨none, none, none⟩⟩
    (by decide) rfl (by decide)

/-- **C9** (counterexample) — the claim asserts the similarity risk score
equals the *weighted mean* of the high-bucket risk scores plus the boost,
clamped.  The code divides the weighted sum by `max(1, total_weight)` (line
699), not by the total weight, so whenever the total weight is below 1 the
result is smaller than the weighted mean.  Concrete input: one high-risk
neighbor (similarity 0.5, equal amount, stored score 80, no flags) gives
`finalSimilarity = 0.65`, total weight 0.65 < 1; the code yields
`0.8×0.65/1 + 0.05 = 0.57`, while the claimed weighted-mean formula yields
`0.8 + 0.05 = 0.85`. -/
theorem claimC9_counterexample :
    bucketEntries 100
      [⟨some (1/2), 100, some ⟨some "high", some 80, some "fraudulent", []⟩⟩]
      "high" ≠ [] ∧
    find_similar_transactions_score (fun x => x) 100
      [⟨some (1/2), 100, some ⟨some "high", some 80, some "fraudulent", []⟩⟩]
      20 = 57/100 ∧
    claimHighBucketScore (bucketEntries 100
      [⟨some (1/2), 100, some ⟨some "high", some 80, some "fraudulent", []⟩⟩]
      "high") = 17/20 ∧
    ((57 : Rat)/100 ≠ 17/20) := by
  refine ⟨?_, ?_, ?_, by norm_num⟩
  · simp [bucketEntries, bucketOf, scoreEntry, positionWeight, amountSimilarity,
      List.enum, List.enumFrom]
  · norm_num [find_similar_transactions_score, bucketEntries, bucketOf,
      scoreEntry, positionWeight, amountSimilarity, bucketTotalWeight,
      bucketWeightedSum, List.enum, List.enumFrom]
  · norm_num [claimHighBucketScore, bucketEntries, bucketOf, scoreEntry,
      positionWeight, amountSimilarity, bucketTotalWeight, bucketWeightedSum,
      List.enum, List.enumFrom]

/-- **C9** (amended) — with a non-empty high-risk bucket the code computes
`max(0, min(1, min(1, weightedSum / max(1, totalWeight)) + boost))` with
boost `min(0.2, 0.05×|highBucket|)` and per-neighbor weight
`finalSimilarity×(1+0.1×flagCount)`: the division is by `max(1, totalWeight)`
rather than the total weight.  Whenever the total weight is at least 1 (and
the weighted sum is between 0 and the total weight, as holds for normalized
stored scores), this coincides with the claimed weighted-mean-plus-boost
formula `claimHighBucketScore`. -/
theorem claimC9_amended (powFn : Rat → Rat) (amt : Rat) (ns : List Neighbor)
    (total : Nat) (hne : bucketEntries amt ns "high" ≠ []) :
    find_similar_transactions_score powFn amt ns total =
      max 0 (min 1 (min 1 (bucketWeightedSum (1/10) (bucketEntries amt ns "high") /
          max 1 (bucketTotalWeight (1/10) (bucketEntries amt ns "high"))) +
        min (2/10) (((bucketEntries amt ns "high").length : Rat) * (5/100)))) ∧
    (1 ≤ bucketTotalWeight (1/10) (bucketEntries amt ns "high") →
      0 ≤ bucketWeightedSum (1/10) (bucketEntries amt ns "high") →
      bucketWeightedSum (1/10) (bucketEntries amt ns "high") ≤
        bucketTotalWeight (1/10) (bucketEntries amt ns "high") →
      find_similar_transactions_score powFn amt ns total =
        claimHighBucketScore (bucketEntries amt ns "high")) := by
  have hns : ns.isEmpty = false := by
    rw [List.isEmpty_eq_false]
    intro h
    rw [h] at hne
    exact hne rfl
  have hhs : (bucketEntries amt ns "high").isEmpty = false :=
    List.isEmpty_eq_false.mpr hne
  have hcode : find_similar_transactions_score powFn amt ns total =
      max 0 (min 1 (min 1 (bucketWeightedSum (1/10) (bucketEntries amt ns "high") /
          max 1 (bucketTotalWeight (1/10) (bucketEntries amt ns "high"))) +
        min (2/10) (((bucketEntries amt ns "high").length : Rat) * (5/100)))) := by
    simp only [find_similar_transactions_score, hns, hhs, Bool.false_eq_true,
      if_false, Bool.not_false, if_true]
    rw [min_eq_right (min_le_left _ _)]
  refine ⟨hcode, fun htw hws0 hwtle => ?_⟩
  rw [hcode, claimHighBucketScore]
  have htwpos : (0 : Rat) < bucketTotalWeight (1/10) (bucketEntries amt ns "high") :=
    lt_of_lt_of_le one_pos htw
  rw [max_eq_right htw, min_eq_right ((div_le_one htwpos).mpr hwtle)]
  have hboost : (0 : Rat) ≤
      min (2/10) (((bucketEntries amt ns "high").length : Rat) * (5/100)) :=
    le_min (by norm_num) (mul_nonneg (Nat.cast_nonneg _) (by norm_num))
  rw [max_eq_right]
  exact le_min (by norm_num)
    (add_nonneg (div_nonneg hws0 (le_of_lt htwpos)) hboost)

/-- Witness for C9: the amended formula at the counterexample's concrete
neighbor. -/
theorem claimC9_witness :
    find_similar_transactions_score (fun x => x) 100
      [⟨some (1/2), 100, some ⟨some "high", some 80, some "fraudulent", []⟩⟩]
      20 =
      max 0 (min 1 (min 1 (bucketWeightedSum (1/10) (bucketEntries 100
          [⟨some (1/2), 100, some ⟨some "high", some 80, some "fraudulent", []⟩⟩]
          "high") /
          max 1 (bucketTotalWeight (1/10) (bucketEntries 100
            [⟨some (1/2), 100, some ⟨some "high", some 80, some "fraudulent", []⟩⟩]
            "high"))) +
        min (2/10) (((bucketEntries 100
          [⟨some (1/2), 100, some ⟨some "high", some 80, some "fraudulent", []⟩⟩]
          "high").length : Rat) * (5/100)))) :=
  (claimC9_amended (fun x => x) 100
    [⟨some (1/2), 100, some ⟨some "high", some 80, some "fraudulent", []⟩⟩] 20
    (by simp [bucketEntries, bucketOf, scoreEntry, positionWeight,
      amountSimilarity, List.enum, List.enumFrom])).1

/-- Witness for C2, at the spec's own worked example extended with a nonzero
location risk and baseline. -/
theorem claimC2_witness :
    calculate_risk_score 1 (1/2) 0 0 0 10 = specCombinedScore 1 (1/2) 0 0 10 :=
  (claimC2_aggregator 1 (1/2) 0 0 10 (by norm_num) (by norm_num) (by norm_num)
    (by norm_num) (by norm_num) (by norm_num) (by norm_num) (by norm_num)
    (by norm_num) (by norm_num)).1

end FraudService
